import Mathlib

/-!
Verification development for the URL Content Saver MCP server.

The embedding models the authoritative sources:
  - `src/src/utils/fileUtils.ts` (the enhanced second revision: `saveStreamToFile`,
    `getBaseDirectory`, `isPathSafe`),
  - `src/src/utils/urlUtils.ts` (the enhanced second revision: `fetchUrlAsStream`),
  - the `saveUrlContent` tool handler and `createUrlContentSaverServer` environment
    setup from `src/unnamed/part_004`.

Ambient effects are made explicit:
  - `Env` holds the process environment variables and the working/home directories;
  - `FileSystem` is an oracle for `fs.existsSync`, `fs.statSync(..).isDirectory()`,
    the parsed `baseDir` field of a `.mcp-config.json` file, `fs.readdirSync("/")`
    (which may fail, mirroring the one fallible call inside `isPathSafe`), and
    write-stream failures;
  - `Network` is an oracle for the global `fetch`.

Node's `path` module is modelled with POSIX semantics (`path.isAbsolute`,
`path.normalize`, `path.resolve`, `path.join` over `/`-separated strings);
backslashes are ordinary characters, as in `path.posix`.  String-valued library
functions (`String.prototype.includes`, `startsWith`, WHATWG `new URL`, `parseInt`)
are modelled below; the WHATWG URL parser and `parseInt` are simplified
(scheme syntax plus a nonempty host for the special schemes; no whitespace
trimming) since they are external library code, not code of this repository.
-/

namespace UrlContentSaver

/-- Model of JavaScript `s.startsWith(pre)`. -/
def strStartsWith (s pre : String) : Bool :=
  pre.toList.isPrefixOf s.toList

/-- Model of JavaScript `s.endsWith(suf)`. -/
def strEndsWith (s suf : String) : Bool :=
  suf.toList.reverse.isPrefixOf s.toList.reverse

/-- Contiguous-sublist test on character lists. -/
def listIsInfix : List Char → List Char → Bool
  | needle, [] => needle.isEmpty
  | needle, hay@(_ :: t) => needle.isPrefixOf hay || listIsInfix needle t

/-- Model of JavaScript `s.includes(sub)`. -/
def jsIncludes (s sub : String) : Bool :=
  listIsInfix sub.toList s.toList

/-- JavaScript truthiness of an optional environment-variable / property value:
`undefined` and the empty string are falsy. -/
def truthy : Option String → Bool
  | none => false
  | some s => !(s == "")

/-- JavaScript `v || d` for an optional string `v` (used for header defaulting). -/
def jsOrDefault (v : Option String) (d : String) : String :=
  match v with
  | none => d
  | some s => if s == "" then d else s

/-! ## POSIX path model (Node `path.posix`) -/

/-- Split a character list at `/` separators. -/
def splitCharsOnSlash (cur : List Char) : List Char → List (List Char)
  | [] => [cur.reverse]
  | c :: rest =>
    if c = '/' then cur.reverse :: splitCharsOnSlash [] rest
    else splitCharsOnSlash (c :: cur) rest

/-- The nonempty segments of a path string. -/
def splitPath (s : String) : List String :=
  ((splitCharsOnSlash [] s.toList).map (fun cs => String.mk cs)).filter (fun t => t ≠ "")

/-- Node `path.posix.isAbsolute`: the path begins with `/`. -/
def pathIsAbsolute (p : String) : Bool :=
  match p.toList with
  | c :: _ => c = '/'
  | [] => false

/-- Segment normalization: drop `.`, apply `..` (allowed above the start only for
relative paths, mirroring Node's `normalizeString` with `allowAboveRoot`). -/
def normSegs (abs : Bool) : List String → List String → List String
  | acc, [] => acc
  | acc, seg :: rest =>
    if seg = "." then normSegs abs acc rest
    else if seg = ".." then
      match acc.getLast? with
      | some last =>
        if last = ".." then normSegs abs (acc ++ [".."]) rest
        else normSegs abs acc.dropLast rest
      | none =>
        if abs then normSegs abs [] rest else normSegs abs [".."] rest
    else normSegs abs (acc ++ [seg]) rest

/-- Join segments with `/`. -/
def interSlash : List String → String
  | [] => ""
  | [s] => s
  | s :: rest => s ++ "/" ++ interSlash rest

/-- Node `path.posix.normalize`. -/
def pathNormalize (p : String) : String :=
  if p = "" then "."
  else
    let abs := pathIsAbsolute p
    let segs := normSegs abs [] (splitPath p)
    let trailing := strEndsWith p "/"
    if segs = [] then
      if abs then "/" else if trailing then "./" else "."
    else
      (if abs then "/" else "") ++ interSlash segs ++ (if trailing then "/" else "")

/-- Right-to-left scan of `path.resolve`'s arguments: a later absolute argument
discards everything before it. -/
def resolveChain : List String → List String → List String
  | acc, [] => acc
  | acc, a :: rest => resolveChain (if pathIsAbsolute a then [a] else acc ++ [a]) rest

/-- Concatenated segments of a list of path strings. -/
def splitAll (l : List String) : List String :=
  l.foldr (fun a acc => splitPath a ++ acc) []

/-- Node `path.posix.resolve(cwd, ...args)` (the process working directory is the
implicit leftmost argument). -/
def pathResolve (cwd : String) (args : List String) : String :=
  let segs := normSegs true [] (splitAll (resolveChain [cwd] args))
  if segs = [] then "/" else "/" ++ interSlash segs

/-- Node `path.posix.join(a, b)`. -/
def pathJoin (a b : String) : String :=
  if a = "" then pathNormalize b else pathNormalize (a ++ "/" ++ b)

/-! ## Ambient environment, filesystem and network oracles -/

/-- The process environment consulted by the server: the environment variables read
by `fileUtils.ts` and `part_004`, plus `process.cwd()` and `os.homedir()`. -/
structure Env where
  mcpAllowAnyPath : Option String
  mcpBaseDir : Option String
  vscodeCwd : Option String
  vscodeExtensionPath : Option String
  vscodeWorkspaceFolder : Option String
  cwd : String
  home : String

/-- Filesystem oracle.  `configBaseDir p` is `some d` when the file at `p` parses as
JSON carrying a string field `baseDir = d`; it is `none` when the file fails to parse
or carries no `baseDir` (both make `getBaseDirectory` continue to the next candidate,
exactly as the code's inner `try`/`catch` plus the `config.baseDir &&` guard do).
`readdirRoot` models `fs.readdirSync("/")`, the one call inside `isPathSafe` that can
throw.  `writeError p` is `some msg` when creating/piping the write stream at `p`
fails with `msg`. -/
structure FileSystem where
  pathExists : String → Bool
  isDirectory : String → Bool
  configBaseDir : String → Option String
  readdirRoot : Except String (List String)
  writeError : String → Option String

/-- Behavior of the global `fetch` at one URL: either the returned promise rejects,
or a response arrives with a status, status text, an optional body and the
`content-type` / `content-length` headers. -/
inductive FetchBehavior where
  | fetchError (msg : String)
  | response (status : Nat) (statusText : String) (hasBody : Bool)
      (contentType : Option String) (contentLength : Option String) (body : List Nat)

/-- Network oracle. -/
structure Network where
  fetch : String → FetchBehavior

/-! ## `getBaseDirectory` (fileUtils.ts, lines 151-244) -/

/-- The three candidate configuration-file locations, in the order the code checks
them: `path.join(cwd, ".mcp-config.json")`, `path.join(cwd, "mcp-config.json")`,
`path.join(os.homedir(), ".mcp-config.json")`. -/
def mcpConfigPaths (env : Env) : List String :=
  [pathJoin env.cwd ".mcp-config.json",
   pathJoin env.cwd "mcp-config.json",
   pathJoin env.home ".mcp-config.json"]

/-- The `for (const configPath of configPaths)` loop: return the first config file
that exists, parses, and names an existing (truthy) `baseDir`; otherwise fall
through. -/
def findConfigDir (fs : FileSystem) : List String → Option String
  | [] => none
  | p :: rest =>
    if fs.pathExists p then
      match fs.configBaseDir p with
      | some d => if d ≠ "" ∧ fs.pathExists d then some d else findConfigDir fs rest
      | none => findConfigDir fs rest
    else findConfigDir fs rest

/-- `getBaseDirectory()` from fileUtils.ts.  The Augment-Code detection block in the
source only logs and has no effect on the result, so it has no counterpart here. -/
def getBaseDirectory (env : Env) (fs : FileSystem) : String :=
  if truthy env.mcpBaseDir ∧ fs.pathExists (env.mcpBaseDir.getD "") then
    env.mcpBaseDir.getD ""
  else
    match findConfigDir fs (mcpConfigPaths env) with
    | some d => d
    | none =>
      if truthy env.vscodeCwd then env.vscodeCwd.getD ""
      else if truthy env.vscodeExtensionPath then env.vscodeExtensionPath.getD ""
      else if truthy env.vscodeWorkspaceFolder then env.vscodeWorkspaceFolder.getD ""
      else if ¬ (fs.pathExists env.cwd ∧ fs.isDirectory env.cwd) then env.home
      else env.cwd

/-! ## `isPathSafe` (fileUtils.ts, lines 252-329) -/

/-- The Windows marker `"AppData\\Local\\Programs\\Trae"` tested by
`baseDirToUse.includes(..)`. -/
def traeWin : String := "AppData\\Local\\Programs\\Trae"

/-- The POSIX marker `"AppData/Local/Programs/Trae"`. -/
def traePosix : String := "AppData/Local/Programs/Trae"

/-- The regular expression `/^[a-zA-Z]:\\/` applied to the file path. -/
def matchesDriveLetter (s : String) : Bool :=
  match s.toList with
  | c1 :: c2 :: c3 :: _ => c1.isAlpha && c2 = ':' && c3 = '\\'
  | _ => false

/-- `filePath.substring(0, 1).toUpperCase()`. -/
def driveUpper (s : String) : String :=
  match s.toList with
  | c :: _ => String.mk [c.toUpper]
  | [] => ""

/-- The drive-existence probe: `fs.readdirSync("/")` with its own `catch` that
falls through to the normal containment check (so a failure yields `false` here,
continuing the outer checks, not an escaping error). -/
def driveExists (fs : FileSystem) (filePath : String) : Bool :=
  match fs.readdirRoot with
  | Except.ok drives => drives.contains (driveUpper filePath ++ ":")
  | Except.error _ => false

/-- The resolved destination used by `isPathSafe`'s containment check: an absolute
file path is resolved as-is, a relative one is first normalized and then resolved
against the base directory (fileUtils.ts lines 302-316). -/
def safeCheckResolved (env : Env) (filePath baseDirToUse : String) : String :=
  if pathIsAbsolute filePath then pathResolve env.cwd [filePath]
  else pathResolve env.cwd [baseDirToUse, pathNormalize filePath]

/-- `const baseDirToUse = baseDir || getBaseDirectory()` (fileUtils.ts line 254). -/
def baseDirToUse (env : Env) (fs : FileSystem) (baseDir : Option String) : String :=
  if truthy baseDir then baseDir.getD "" else getBaseDirectory env fs

/-- The `try` block of `isPathSafe`, value-level: every branch of the source body
`return`s a boolean, so the result is always `Except.ok`; the only fallible
primitive it calls (`fs.readdirSync`) is wrapped in its own inner `catch`
(see `driveExists`). -/
def isPathSafeExc (env : Env) (fs : FileSystem) (filePath : String)
    (baseDir : Option String) : Except String Bool :=
  if env.mcpAllowAnyPath = some "true" then Except.ok true
  else if jsIncludes (baseDirToUse env fs baseDir) traeWin ||
      jsIncludes (baseDirToUse env fs baseDir) traePosix then
    Except.ok true
  else if (pathIsAbsolute filePath && matchesDriveLetter filePath &&
      (truthy env.vscodeCwd || truthy env.vscodeExtensionPath ||
        truthy env.vscodeWorkspaceFolder)) && driveExists fs filePath then
    Except.ok true
  else
    Except.ok (strStartsWith (safeCheckResolved env filePath (baseDirToUse env fs baseDir))
      (pathResolve env.cwd [baseDirToUse env fs baseDir]))

/-- `isPathSafe(filePath, baseDir?)`: the outer `catch` maps any escaping error to
`false` (fail closed). -/
def isPathSafe (env : Env) (fs : FileSystem) (filePath : String)
    (baseDir : Option String) : Bool :=
  match isPathSafeExc env fs filePath baseDir with
  | Except.ok r => r
  | Except.error _ => false

/-! ## WHATWG URL validity (`new URL(url)` succeeding), simplified model -/

/-- Characters allowed in a URL scheme after the first. -/
def isSchemeChar (c : Char) : Bool :=
  c.isAlpha || c.isDigit || c = '+' || c = '-' || c = '.'

/-- Split a candidate URL at the first `:` provided everything before it is scheme
material. -/
def takeScheme : List Char → Option (List Char × List Char)
  | [] => none
  | c :: rest =>
    if c = ':' then some ([], rest)
    else if isSchemeChar c then
      match takeScheme rest with
      | some (sch, after) => some (c :: sch, after)
      | none => none
    else none

/-- The WHATWG special schemes that require a host. -/
def specialSchemes : List String := ["http", "https", "ws", "wss", "ftp"]

/-- Leading slashes of the part after the scheme. -/
def dropSlashes : List Char → List Char
  | '/' :: rest => dropSlashes rest
  | l => l

/-- Simplified model of `new URL(url)` succeeding: a scheme starting with a letter,
then `:`; the special schemes additionally need nonempty host material.  Note that
this is only well-formedness — the parser accepts `ftp:`, `file:` and every other
scheme, which is exactly the behavior of the WHATWG constructor the code relies on. -/
def jsUrlParses (s : String) : Bool :=
  match takeScheme s.toList with
  | some (c :: sch, rest) =>
    c.isAlpha &&
      (if specialSchemes.contains (String.mk ((c :: sch).map Char.toLower)) then
        !(dropSlashes rest).isEmpty
      else true)
  | _ => false

/-! ## `fetchUrlAsStream` (urlUtils.ts, lines 120-242) -/

/-- Model of JavaScript `parseInt(s, 10)` restricted to what the code feeds it
(no whitespace trimming; a NaN result is folded into `none`). -/
def leadingDigits : List Char → List Char
  | [] => []
  | c :: rest => if c.isDigit then c :: leadingDigits rest else []

/-- Numeric value of a digit list. -/
def digitsVal (ds : List Char) : Nat :=
  ds.foldl (fun a c => a * 10 + (c.toNat - 48)) 0

/-- `parseInt(s, 10)` (simplified; `none` stands for NaN). -/
def jsParseInt (s : String) : Option Int :=
  match s.toList with
  | '-' :: rest =>
    (match leadingDigits rest with
     | [] => none
     | ds => some (-(digitsVal ds : Int)))
  | '+' :: rest =>
    (match leadingDigits rest with
     | [] => none
     | ds => some ((digitsVal ds : Int)))
  | l =>
    (match leadingDigits l with
     | [] => none
     | ds => some ((digitsVal ds : Int)))

/-- `contentLengthStr ? parseInt(contentLengthStr, 10) : null`. -/
def jsHeaderInt : Option String → Option Int
  | none => none
  | some s => if s == "" then none else jsParseInt s

/-- The metadata record of `UrlFetchResponse` (the raw `headers` map is omitted:
nothing downstream reads it). -/
structure UrlFetchMetadata where
  contentType : String
  contentLength : Option Int
  url : String
  statusCode : Nat
  deriving DecidableEq

/-- `UrlFetchResponse`: the body stream is modelled by the byte list it yields. -/
structure UrlFetchResponse where
  body : List Nat
  metadata : UrlFetchMetadata
  deriving DecidableEq

/-- `fetchUrlAsStream(url)`.  The result pairs the thrown-or-returned value with a
flag recording whether `fetch` was invoked (the network call).  The
`Readable.fromWeb` conversion is modelled as always succeeding. -/
def fetchUrlAsStream (net : Network) (url : String) :
    Except String UrlFetchResponse × Bool :=
  if jsUrlParses url then
    match net.fetch url with
    | FetchBehavior.fetchError m =>
      (Except.error ("Failed to fetch URL: " ++ m), true)
    | FetchBehavior.response st stx hasBody ct cl body =>
      if 200 ≤ st ∧ st ≤ 299 then
        if hasBody then
          (Except.ok
            { body := body,
              metadata :=
                { contentType := jsOrDefault ct "application/octet-stream",
                  contentLength := jsHeaderInt cl,
                  url := url,
                  statusCode := st } }, true)
        else (Except.error "Response body is null", true)
      else (Except.error ("Failed to fetch URL: " ++ toString st ++ " " ++ stx), true)
  else (Except.error ("Invalid URL format: " ++ url), false)

/-! ## `saveStreamToFile` (fileUtils.ts, lines 101-145) and the tool handler
(`part_004`, lines 61-200) -/

/-- Observable filesystem writes: a completed streamed write of the full body, or a
write aborted by a stream error. -/
inductive WriteEvent where
  | full (path : String) (bytes : List Nat)
  | aborted (path : String)
  deriving DecidableEq

/-- `saveStreamToFile(filePath, stream)`: pipe the body into a write stream, then
`fs.stat` the written file — the reported size is the size of the file on disk,
i.e. the number of bytes actually piped.  A pipeline error is rethrown. -/
def saveStreamToFile (fs : FileSystem) (filePath : String) (body : List Nat) :
    Except String (String × Nat) × List WriteEvent :=
  match fs.writeError filePath with
  | some m => (Except.error m, [WriteEvent.aborted filePath])
  | none => (Except.ok (filePath, body.length), [WriteEvent.full filePath body])

/-- The hardcoded Augment-Code fallback directory from `part_004`. -/
def webChatterDir : String := "D:\\AM\\GitHub\\web-chatter"

/-- The absolute destination computed by the tool handler (`part_004`,
lines 101-133) from the already-normalized path. -/
def destinationPath (env : Env) (fs : FileSystem) (baseDir normalizedPath : String) :
    String :=
  if jsIncludes env.cwd traeWin || jsIncludes env.cwd traePosix then
    if !(pathIsAbsolute normalizedPath) then
      if fs.pathExists webChatterDir then
        pathResolve env.cwd [webChatterDir, normalizedPath]
      else if pathIsAbsolute normalizedPath then normalizedPath
      else pathResolve env.cwd [baseDir, normalizedPath]
    else normalizedPath
  else if pathIsAbsolute normalizedPath then normalizedPath
  else pathResolve env.cwd [baseDir, normalizedPath]

/-- The two JSON shapes the handler returns: the success object carries
`filePath`, `fileSize`, `contentType`, `url` and `statusCode`; the failure object
carries only `error` (both carry `success`). -/
inductive Outcome where
  | success (filePath : String) (fileSize : Nat) (contentType : String)
      (url : String) (statusCode : Nat)
  | failure (error : String)
  deriving DecidableEq

/-- The key/value pairs of the serialized response object, in source order. -/
def outcomeFields : Outcome → List (String × String)
  | Outcome.success fp n ct u sc =>
    [("success", "true"), ("filePath", fp), ("fileSize", toString n),
     ("contentType", ct), ("url", u), ("statusCode", toString sc)]
  | Outcome.failure e =>
    [("success", "false"), ("error", e)]

/-- Result of one `saveUrlContent` call: the structured outcome, the writes
performed, and two instrumentation flags — whether the `!isPathSafe` rejection
branch was taken, and whether `fetch` was invoked. -/
structure ToolResult where
  outcome : Outcome
  writes : List WriteEvent
  pathRejected : Bool
  fetchAttempted : Bool
  deriving DecidableEq

/-- The `saveUrlContent` tool handler (`part_004`, lines 67-199).  Every error
thrown by the pipeline (`fetchUrlAsStream`, `saveStreamToFile`) is caught by the
handler's `catch` and converted into the failure object. -/
def saveUrlContent (env : Env) (fs : FileSystem) (net : Network)
    (url filePath : String) : ToolResult :=
  if isPathSafe env fs filePath (some (getBaseDirectory env fs)) then
    match fetchUrlAsStream net url with
    | (Except.error m, fa) =>
      { outcome := Outcome.failure m, writes := [],
        pathRejected := false, fetchAttempted := fa }
    | (Except.ok resp, fa) =>
      match saveStreamToFile fs
          (destinationPath env fs (getBaseDirectory env fs) (pathNormalize filePath))
          resp.body with
      | (Except.error m, ws) =>
        { outcome := Outcome.failure m, writes := ws,
          pathRejected := false, fetchAttempted := fa }
      | (Except.ok res, ws) =>
        { outcome := Outcome.success res.1 res.2 resp.metadata.contentType
            resp.metadata.url resp.metadata.statusCode,
          writes := ws, pathRejected := false, fetchAttempted := fa }
  else
    { outcome := Outcome.failure
        ("Invalid file path: Path is outside the base directory (" ++
          getBaseDirectory env fs ++ ")"),
      writes := [], pathRejected := true, fetchAttempted := false }

/-- The environment mutation performed by `createUrlContentSaverServer`
(`part_004`, lines 27-30): when `MCP_ALLOW_ANY_PATH` is falsy (unset or empty) it
is set to `"true"`. -/
def createUrlContentSaverServerEnv (env : Env) : Env :=
  if !(truthy env.mcpAllowAnyPath) then { env with mcpAllowAnyPath := some "true" }
  else env

/-! ## Spec-side definition for the containment comparison -/

/-- Written from the spec's words, for comparison with the code's check: the
absolute path obtained by resolving `p` (against `b` when `p` is relative) lies
inside the subtree of `b` — it equals the resolved base or extends it past a `/`
separator. -/
def specInsideSubtree (cwd p b : String) : Bool :=
  let rp := if pathIsAbsolute p then pathResolve cwd [p] else pathResolve cwd [b, p]
  let rb := pathResolve cwd [b]
  (rp == rb) || strStartsWith rp (rb ++ "/")

/-! ## Concrete fixtures used by counterexamples and witnesses -/

/-- A default environment: no overrides set, working directory `/`, home `/root`. -/
def baseEnv : Env :=
  { mcpAllowAnyPath := none,
    mcpBaseDir := none,
    vscodeCwd := none,
    vscodeExtensionPath := none,
    vscodeWorkspaceFolder := none,
    cwd := "/",
    home := "/root" }

/-- A filesystem with no files, a readable empty root, and no write failures. -/
def emptyFs : FileSystem :=
  { pathExists := fun _ => false,
    isDirectory := fun _ => false,
    configBaseDir := fun _ => none,
    readdirRoot := Except.ok [],
    writeError := fun _ => none }

/-- Environment where `VSCODE_CWD` names a path that does not exist on disk. -/
def envGhost : Env :=
  { baseEnv with
    vscodeCwd := some "/ghost",
    cwd := "/app",
    home := "/root" }

/-- Filesystem for `envGhost`: only `/app` and `/root` exist. -/
def fsGhost : FileSystem :=
  { emptyFs with
    pathExists := fun p => p == "/app" || p == "/root",
    isDirectory := fun p => p == "/app" || p == "/root" }

/-- A network where every fetch rejects, as Node `fetch` does for non-HTTP(S)
schemes. -/
def netReject : Network :=
  { fetch := fun _ => FetchBehavior.fetchError "fetch failed" }

/-- A network answering 404 Not Found with a body. -/
def net404 : Network :=
  { fetch := fun _ => FetchBehavior.response 404 "Not Found" true none none [] }

/-- A network answering 200 OK, no `content-type` header, a `content-length`
header that disagrees with the actual 3-byte body. -/
def netOk : Network :=
  { fetch := fun _ => FetchBehavior.response 200 "OK" true none (some "999") [7, 8, 9] }

/-- Environment whose working directory carries the Trae (Augment Code) marker
and whose `MCP_BASE_DIR` names `/base`. -/
def envTrae : Env :=
  { baseEnv with
    cwd := "/u/AppData/Local/Programs/Trae",
    mcpBaseDir := some "/base" }

/-- Filesystem for `envTrae`: `/base` and the hardcoded web-chatter directory
exist. -/
def fsTrae : FileSystem :=
  { emptyFs with
    pathExists := fun p => p == "/base" || p == webChatterDir,
    isDirectory := fun p => p == "/base" }

/-! ## Helper lemmas -/

/-- A POSIX-absolute path can never match the Windows drive-letter regular
expression `/^[a-zA-Z]:\\/`: its first character is `/`, which is not a letter. -/
theorem pathIsAbsolute_not_drive (p : String) (h : pathIsAbsolute p = true) :
    matchesDriveLetter p = false := by
  unfold pathIsAbsolute at h
  unfold matchesDriveLetter
  cases hl : p.toList with
  | nil => rw [hl] at h
  | cons c rest =>
    rw [hl] at h
    have hc : c = '/' := by simpa using h
    subst hc
    cases rest with
    | nil => rfl
    | cons c2 rest2 =>
      cases rest2 with
      | nil => rfl
      | cons c3 rest3 =>
        simp [show ('/').isAlpha = false from by decide]

/-- The VS Code drive-letter special case of `isPathSafe` can never fire in the
POSIX path model: its guard needs the path to be both absolute and
drive-letter-shaped. -/
theorem drive_guard_false (env : Env) (fs : FileSystem) (p : String) :
    ((pathIsAbsolute p && matchesDriveLetter p &&
      (truthy env.vscodeCwd || truthy env.vscodeExtensionPath ||
        truthy env.vscodeWorkspaceFolder)) && driveExists fs p) = false := by
  cases habs : pathIsAbsolute p with
  | false => simp [habs]
  | true => simp [habs, pathIsAbsolute_not_drive p habs]

/-- A directory returned from the configuration-file loop is never the empty
string: the loop only returns a `baseDir` that passed the truthiness guard. -/
theorem findConfigDir_ne_empty (fs : FileSystem) :
    ∀ (ps : List String) (d : String), findConfigDir fs ps = some d → d ≠ "" := by
  intro ps
  induction ps with
  | nil => intro d h; simp [findConfigDir] at h
  | cons p rest ih =>
    intro d h
    unfold findConfigDir at h
    split at h
    · split at h
      · split at h
        · rename_i hcnd
          injection h with h2
          subst h2
          exact hcnd.1
        · exact ih d h
      · exact ih d h
    · exact ih d h

/-- With an explicit nonempty base directory, `baseDirToUse` is that directory. -/
theorem baseDirToUse_some (env : Env) (fs : FileSystem) (b : String) (hb : b ≠ "") :
    baseDirToUse env fs (some b) = b := by
  unfold baseDirToUse truthy
  simp [hb]

/-! ## C1 -/

/-- C1, counterexample: with no override active (`MCP_ALLOW_ANY_PATH` unset, base
directory free of the Trae marker), the resolved path `/work2/secret` lies outside
the subtree of the base directory `/work`, yet `isPathSafe` returns `true`,
because the code's containment test is a plain string-prefix check and `/work` is
a string prefix of `/work2/secret`. -/
theorem isPathSafe_prefix_not_subtree_cx :
    baseEnv.mcpAllowAnyPath ≠ some "true" ∧
    jsIncludes "/work" traeWin = false ∧
    jsIncludes "/work" traePosix = false ∧
    specInsideSubtree baseEnv.cwd "/work2/secret" "/work" = false ∧
    isPathSafe baseEnv emptyFs "/work2/secret" (some "/work") = true :=
  ⟨by decide, rfl, rfl, rfl, rfl⟩

/-- C1, amended: for every path P and nonempty base directory B such that the
string form of the resolved destination does not begin with the resolved form of
B, with the allow-any-path override inactive and B free of the recognized
unrestricted-context (Trae) markers, `isPathSafe(P, B)` returns `false`.  (The
containment criterion is string-prefix agreement, not subtree membership; the VS
Code drive-letter special case never applies to POSIX paths, see
`drive_guard_false`.) -/
theorem isPathSafe_outside_prefix_false (env : Env) (fs : FileSystem) (p b : String)
    (h1 : env.mcpAllowAnyPath ≠ some "true")
    (h2 : jsIncludes b traeWin = false)
    (h3 : jsIncludes b traePosix = false)
    (h4 : b ≠ "")
    (h5 : strStartsWith (safeCheckResolved env p b) (pathResolve env.cwd [b]) = false) :
    isPathSafe env fs p (some b) = false := by
  unfold isPathSafe isPathSafeExc
  rw [baseDirToUse_some env fs b h4, if_neg h1]
  simp [h2, h3, drive_guard_false, h5]

/-- Witness for C1's amended theorem at a concrete input: path `../x` escapes the
base directory `/work`, and `isPathSafe` rejects it. -/
theorem isPathSafe_outside_prefix_false_witness :
    isPathSafe baseEnv emptyFs "../x" (some "/work") = false :=
  isPathSafe_outside_prefix_false baseEnv emptyFs "../x" "/work"
    (by decide) rfl rfl (by decide) rfl

/-! ## C2 -/

/-- C2: when `MCP_ALLOW_ANY_PATH` is unset, `createUrlContentSaverServer` sets it
to `"true"`; from then on `isPathSafe` returns `true` for every path and every
base directory, and no `saveUrlContent` invocation ever takes the
path-outside-base-directory rejection branch. -/
theorem allowAnyPath_default_bypass (env : Env) (fs : FileSystem)
    (h : env.mcpAllowAnyPath = none) :
    (createUrlContentSaverServerEnv env).mcpAllowAnyPath = some "true" ∧
    (∀ (p : String) (b : Option String),
      isPathSafe (createUrlContentSaverServerEnv env) fs p b = true) ∧
    (∀ (net : Network) (url fp : String),
      (saveUrlContent (createUrlContentSaverServerEnv env) fs net url fp).pathRejected
        = false) := by
  have hset : (createUrlContentSaverServerEnv env).mcpAllowAnyPath = some "true" := by
    unfold createUrlContentSaverServerEnv
    rw [h]
    simp [truthy]
  have hsafe : ∀ (p : String) (b : Option String),
      isPathSafe (createUrlContentSaverServerEnv env) fs p b = true := by
    intro p b
    unfold isPathSafe isPathSafeExc
    rw [if_pos hset]
  refine ⟨hset, hsafe, ?_⟩
  intro net url fp
  unfold saveUrlContent
  rw [if_pos (hsafe fp (some (getBaseDirectory (createUrlContentSaverServerEnv env) fs)))]
  split
  · rfl
  · split
    · rfl
    · rfl

/-- Witness for C2 at a concrete input: the default environment is patched to
`"true"`, an absolute path far outside the base directory passes `isPathSafe`,
and the handler does not reject it. -/
theorem allowAnyPath_default_bypass_witness :
    (createUrlContentSaverServerEnv baseEnv).mcpAllowAnyPath = some "true" ∧
    isPathSafe (createUrlContentSaverServerEnv baseEnv) emptyFs "/etc/passwd"
      (some "/work") = true ∧
    (saveUrlContent (createUrlContentSaverServerEnv baseEnv) emptyFs netReject
      "http://example.com/" "/etc/passwd").pathRejected = false := by
  obtain ⟨h1, h2, h3⟩ := allowAnyPath_default_bypass baseEnv emptyFs rfl
  exact ⟨h1, h2 "/etc/passwd" (some "/work"),
    h3 netReject "http://example.com/" "/etc/passwd"⟩

/-! ## C8 -/

/-- C8: for every input, the body of `isPathSafe` completes without an escaping
error (its one fallible call, `fs.readdirSync("/")`, is caught by the inner
`catch` modelled in `driveExists`), and `isPathSafe` returns that boolean;
by the outer-`catch` definition of `isPathSafe`, an error value would map to
`false` (fail closed). -/
theorem isPathSafe_no_exception_fail_closed (env : Env) (fs : FileSystem)
    (p : String) (b : Option String) :
    ∃ r : Bool, isPathSafeExc env fs p b = Except.ok r ∧ isPathSafe env fs p b = r := by
  have hok : ∃ r : Bool, isPathSafeExc env fs p b = Except.ok r := by
    unfold isPathSafeExc
    split
    · exact ⟨true, rfl⟩
    · split
      · exact ⟨true, rfl⟩
      · split
        · exact ⟨true, rfl⟩
        · exact ⟨_, rfl⟩
  obtain ⟨r, hr⟩ := hok
  refine ⟨r, hr, ?_⟩
  unfold isPathSafe
  rw [hr]

/-! ## C3 -/

/-- C3, counterexample: `ftp://example.com/` is a well-formed URL with a
non-HTTP(S) scheme.  The code performs no scheme check, so the fetch call IS
made (`fetchAttempted = true`), refuting the claim that no network call occurs;
the Failure that results comes from the fetch layer's rejection, not from URL
validation. -/
theorem scheme_unchecked_fetch_cx :
    jsUrlParses "ftp://example.com/" = true ∧
    (saveUrlContent baseEnv emptyFs netReject "ftp://example.com/"
      "out.txt").fetchAttempted = true ∧
    (saveUrlContent baseEnv emptyFs netReject "ftp://example.com/"
      "out.txt").outcome = Outcome.failure "Failed to fetch URL: fetch failed" :=
  ⟨rfl, rfl, rfl⟩

/-- C3, amended: only a URL that fails to parse is rejected without a network
call (with reason `Invalid URL format: <url>`); a well-formed URL of any scheme
(including `ftp:` and `file:`) is passed to `fetch`, and a fetch rejection is
surfaced as a Failure with reason `Failed to fetch URL: <message>`. -/
theorem fetch_attempt_vs_parse (net : Network) (url : String) :
    (jsUrlParses url = false →
      fetchUrlAsStream net url = (Except.error ("Invalid URL format: " ++ url), false)) ∧
    (∀ m : String, jsUrlParses url = true → net.fetch url = FetchBehavior.fetchError m →
      fetchUrlAsStream net url = (Except.error ("Failed to fetch URL: " ++ m), true)) := by
  constructor
  · intro h
    unfold fetchUrlAsStream
    rw [if_neg (by simp [h])]
  · intro m h1 h2
    unfold fetchUrlAsStream
    rw [if_pos h1, h2]

/-- Witness for C3's amended theorem: a malformed URL is refused with no fetch,
a well-formed `ftp:` URL reaches the fetch layer and its rejection is returned. -/
theorem fetch_attempt_vs_parse_witness :
    fetchUrlAsStream netReject "not-a-url" =
      (Except.error "Invalid URL format: not-a-url", false) ∧
    fetchUrlAsStream netReject "ftp://example.com/" =
      (Except.error "Failed to fetch URL: fetch failed", true) :=
  ⟨(fetch_attempt_vs_parse netReject "not-a-url").1 rfl,
   (fetch_attempt_vs_parse netReject "ftp://example.com/").2 "fetch failed" rfl rfl⟩

/-! ## C4 -/

/-- C4, counterexample: with `MCP_BASE_DIR` unset, no configuration files, and
`VSCODE_CWD=/ghost` where `/ghost` does not exist on disk, `getBaseDirectory`
returns `/ghost` — a path that neither exists nor is a directory — because the
workspace-variable branches perform no existence check. -/
theorem getBaseDirectory_nonexistent_cx :
    getBaseDirectory envGhost fsGhost = "/ghost" ∧
    fsGhost.pathExists "/ghost" = false ∧
    fsGhost.isDirectory "/ghost" = false :=
  ⟨rfl, rfl, rfl⟩

/-- A truthy optional string is a nonempty string. -/
theorem truthy_getD_ne (o : Option String) (h : truthy o = true) : o.getD "" ≠ "" := by
  cases o with
  | none => simp [truthy] at h
  | some s =>
    simp only [Option.getD]
    simp [truthy] at h
    exact h

/-- C4, amended: `getBaseDirectory` never raises an error (it is total) and
always returns a non-empty path whenever the working and home directories are
non-empty; but the result is guaranteed to exist on disk only when it comes from
the override variable, a configuration file, or the cwd/home fallback — a value
taken from a `VSCODE_*` workspace variable is returned without any existence
check. -/
theorem getBaseDirectory_total_nonempty (env : Env) (fs : FileSystem)
    (h1 : env.cwd ≠ "") (h2 : env.home ≠ "") :
    getBaseDirectory env fs ≠ "" := by
  unfold getBaseDirectory
  split
  · rename_i hcond
    exact truthy_getD_ne _ hcond.1
  · split
    · rename_i d hd
      exact findConfigDir_ne_empty fs _ d hd
    · split
      · rename_i ht
        exact truthy_getD_ne _ ht
      · split
        · rename_i ht
          exact truthy_getD_ne _ ht
        · split
          · rename_i ht
            exact truthy_getD_ne _ ht
          · split
            · exact h2
            · exact h1

/-- Witness for C4's amended theorem at the counterexample environment. -/
theorem getBaseDirectory_total_nonempty_witness :
    envGhost.cwd ≠ "" ∧ envGhost.home ≠ "" ∧ getBaseDirectory envGhost fsGhost ≠ "" :=
  ⟨by decide, by decide,
    getBaseDirectory_total_nonempty envGhost fsGhost (by decide) (by decide)⟩

/-! ## C5 -/

/-- C5, counterexample: a 404 response yields a Failure whose reason carries the
status code and status text and no file is written — but the serialized failure
object carries only the `success` and `error` keys; it has no `url` (sourceUrl)
and no `statusCode` field, refuting that part of the claim. -/
theorem http_error_failure_fields_cx :
    (saveUrlContent baseEnv emptyFs net404 "http://example.com/" "out.txt").outcome =
      Outcome.failure "Failed to fetch URL: 404 Not Found" ∧
    (saveUrlContent baseEnv emptyFs net404 "http://example.com/" "out.txt").writes = [] ∧
    (outcomeFields (saveUrlContent baseEnv emptyFs net404 "http://example.com/"
      "out.txt").outcome).map Prod.fst = ["success", "error"] :=
  ⟨rfl, rfl, rfl⟩

/-- C5, amended: for every response arriving with a non-2xx status, the outcome
is a Failure whose reason is exactly `Failed to fetch URL: <status> <statusText>`
(so it includes the status code and status text), and the body is not written to
disk; the failure record carries only the `success` and `error` fields — no
`sourceUrl` and no `statusCode`. -/
theorem non2xx_failure (env : Env) (fs : FileSystem) (net : Network)
    (url fp : String) (st : Nat) (stx : String) (hb : Bool)
    (ct cl : Option String) (body : List Nat)
    (hsafe : isPathSafe env fs fp (some (getBaseDirectory env fs)) = true)
    (hurl : jsUrlParses url = true)
    (hfetch : net.fetch url = FetchBehavior.response st stx hb ct cl body)
    (hbad : ¬(200 ≤ st ∧ st ≤ 299)) :
    (saveUrlContent env fs net url fp).outcome =
      Outcome.failure ("Failed to fetch URL: " ++ toString st ++ " " ++ stx) ∧
    (saveUrlContent env fs net url fp).writes = [] ∧
    (outcomeFields (saveUrlContent env fs net url fp).outcome).map Prod.fst =
      ["success", "error"] := by
  have hfe : fetchUrlAsStream net url =
      (Except.error ("Failed to fetch URL: " ++ toString st ++ " " ++ stx), true) := by
    simp [fetchUrlAsStream, hurl, hfetch, hbad]
  unfold saveUrlContent
  rw [if_pos hsafe]
  simp only [hfe]
  exact ⟨trivial, trivial, rfl⟩

/-- Witness for C5's amended theorem at the concrete 404 network. -/
theorem non2xx_failure_witness :
    (saveUrlContent baseEnv emptyFs net404 "http://example.com/" "index.html").outcome =
      Outcome.failure "Failed to fetch URL: 404 Not Found" ∧
    (saveUrlContent baseEnv emptyFs net404 "http://example.com/" "index.html").writes = [] ∧
    (outcomeFields (saveUrlContent baseEnv emptyFs net404 "http://example.com/"
      "index.html").outcome).map Prod.fst = ["success", "error"] :=
  non2xx_failure baseEnv emptyFs net404 "http://example.com/" "index.html"
    404 "Not Found" true none none [] rfl rfl rfl (by decide)

/-! ## C6 -/

/-- C6: a successful transfer of an N-byte body reports `fileSize = N` and writes
exactly the body bytes to the destination file; the size is the size of the file
actually written — the `content-length` header value `cl` is universally
quantified and does not occur in the conclusion's size, so the count is
header-independent. -/
theorem stream_roundtrip (env : Env) (fs : FileSystem) (net : Network)
    (url fp : String) (st : Nat) (stx : String) (ct cl : Option String)
    (body : List Nat)
    (hsafe : isPathSafe env fs fp (some (getBaseDirectory env fs)) = true)
    (hurl : jsUrlParses url = true)
    (hfetch : net.fetch url = FetchBehavior.response st stx true ct cl body)
    (h2xx : 200 ≤ st ∧ st ≤ 299)
    (hw : fs.writeError
      (destinationPath env fs (getBaseDirectory env fs) (pathNormalize fp)) = none) :
    (saveUrlContent env fs net url fp).outcome =
      Outcome.success (destinationPath env fs (getBaseDirectory env fs) (pathNormalize fp))
        body.length (jsOrDefault ct "application/octet-stream") url st ∧
    (saveUrlContent env fs net url fp).writes =
      [WriteEvent.full
        (destinationPath env fs (getBaseDirectory env fs) (pathNormalize fp)) body] := by
  have hfe : fetchUrlAsStream net url =
      (Except.ok
        { body := body,
          metadata :=
            { contentType := jsOrDefault ct "application/octet-stream",
              contentLength := jsHeaderInt cl,
              url := url,
              statusCode := st } }, true) := by
    simp [fetchUrlAsStream, hurl, hfetch, h2xx]
  have hss : saveStreamToFile fs
      (destinationPath env fs (getBaseDirectory env fs) (pathNormalize fp)) body =
      (Except.ok
        (destinationPath env fs (getBaseDirectory env fs) (pathNormalize fp), body.length),
       [WriteEvent.full
         (destinationPath env fs (getBaseDirectory env fs) (pathNormalize fp)) body]) := by
    simp [saveStreamToFile, hw]
  unfold saveUrlContent
  rw [if_pos hsafe]
  simp only [hfe]
  simp only [hss]
  exact ⟨trivial, trivial⟩

/-- Witness for C6: a 3-byte body is saved with `fileSize = 3` and the file holds
exactly those bytes, even though the `content-length` header claims 999. -/
theorem stream_roundtrip_witness :
    (saveUrlContent baseEnv emptyFs netOk "http://example.com/" "out.txt").outcome =
      Outcome.success "/root/out.txt" 3 "application/octet-stream"
        "http://example.com/" 200 ∧
    (saveUrlContent baseEnv emptyFs netOk "http://example.com/" "out.txt").writes =
      [WriteEvent.full "/root/out.txt" [7, 8, 9]] :=
  stream_roundtrip baseEnv emptyFs netOk "http://example.com/" "out.txt"
    200 "OK" none (some "999") [7, 8, 9] rfl rfl rfl (by decide) rfl

/-! ## C7 -/

/-- C7: every well-formed invocation of `saveUrlContent` produces exactly one
structured outcome — a success record or a failure record, never both and never
neither; the handler is total over all environment, filesystem and network
behaviors because its `catch` converts every pipeline error into the failure
object. -/
theorem saveUrlContent_single_outcome (env : Env) (fs : FileSystem) (net : Network)
    (url fp : String) (h1 : url ≠ "") (h2 : fp ≠ "") :
    ((∃ a n ct u sc, (saveUrlContent env fs net url fp).outcome =
        Outcome.success a n ct u sc) ∨
      (∃ m, (saveUrlContent env fs net url fp).outcome = Outcome.failure m)) ∧
    ¬((∃ a n ct u sc, (saveUrlContent env fs net url fp).outcome =
        Outcome.success a n ct u sc) ∧
      (∃ m, (saveUrlContent env fs net url fp).outcome = Outcome.failure m)) := by
  constructor
  · cases h : (saveUrlContent env fs net url fp).outcome with
    | success a n ct u sc => exact Or.inl ⟨a, n, ct, u, sc, rfl⟩
    | failure m => exact Or.inr ⟨m, rfl⟩
  · rintro ⟨⟨a, n, ct, u, sc, hs⟩, ⟨m, hf⟩⟩
    rw [hs] at hf
    exact Outcome.noConfusion hf

/-- Witness for C7 at a concrete well-formed invocation. -/
theorem saveUrlContent_single_outcome_witness :
    ((∃ a n ct u sc, (saveUrlContent baseEnv emptyFs net404 "http://example.com/"
        "a.txt").outcome = Outcome.success a n ct u sc) ∨
      (∃ m, (saveUrlContent baseEnv emptyFs net404 "http://example.com/"
        "a.txt").outcome = Outcome.failure m)) ∧
    ¬((∃ a n ct u sc, (saveUrlContent baseEnv emptyFs net404 "http://example.com/"
        "a.txt").outcome = Outcome.success a n ct u sc) ∧
      (∃ m, (saveUrlContent baseEnv emptyFs net404 "http://example.com/"
        "a.txt").outcome = Outcome.failure m)) :=
  saveUrlContent_single_outcome baseEnv emptyFs net404 "http://example.com/" "a.txt"
    (by decide) (by decide)

/-! ## C9 -/

/-- C9: a successful transfer whose response carries no `content-type` header
reports `contentType = "application/octet-stream"`. -/
theorem missing_content_type_default (env : Env) (fs : FileSystem) (net : Network)
    (url fp : String) (st : Nat) (stx : String) (cl : Option String)
    (body : List Nat)
    (hsafe : isPathSafe env fs fp (some (getBaseDirectory env fs)) = true)
    (hurl : jsUrlParses url = true)
    (hfetch : net.fetch url = FetchBehavior.response st stx true none cl body)
    (h2xx : 200 ≤ st ∧ st ≤ 299)
    (hw : fs.writeError
      (destinationPath env fs (getBaseDirectory env fs) (pathNormalize fp)) = none) :
    (saveUrlContent env fs net url fp).outcome =
      Outcome.success (destinationPath env fs (getBaseDirectory env fs) (pathNormalize fp))
        body.length "application/octet-stream" url st := by
  have hfe : fetchUrlAsStream net url =
      (Except.ok
        { body := body,
          metadata :=
            { contentType := "application/octet-stream",
              contentLength := jsHeaderInt cl,
              url := url,
              statusCode := st } }, true) := by
    simp [fetchUrlAsStream, hurl, hfetch, h2xx, jsOrDefault]
  have hss : saveStreamToFile fs
      (destinationPath env fs (getBaseDirectory env fs) (pathNormalize fp)) body =
      (Except.ok
        (destinationPath env fs (getBaseDirectory env fs) (pathNormalize fp), body.length),
       [WriteEvent.full
         (destinationPath env fs (getBaseDirectory env fs) (pathNormalize fp)) body]) := by
    simp [saveStreamToFile, hw]
  unfold saveUrlContent
  rw [if_pos hsafe]
  simp only [hfe]
  simp only [hss]

/-- Witness for C9: `netOk` sends no `content-type` header and the success
outcome defaults to the octet-stream label. -/
theorem missing_content_type_default_witness :
    (saveUrlContent baseEnv emptyFs netOk "http://example.com/" "data.bin").outcome =
      Outcome.success "/root/data.bin" 3 "application/octet-stream"
        "http://example.com/" 200 :=
  missing_content_type_default baseEnv emptyFs netOk "http://example.com/" "data.bin"
    200 "OK" (some "999") [7, 8, 9] rfl rfl rfl (by decide) rfl

/-! ## C10 -/

/-- C10: when the working directory carries the Trae (Augment Code) marker and
the hardcoded `D:\AM\GitHub\web-chatter` directory exists, a relative file path
is resolved against that hardcoded directory instead of the computed base
directory, so the destination actually written differs from the base-resolved
path that `isPathSafe` vetted. -/
theorem trae_webchatter_destination (env : Env) (fs : FileSystem) (net : Network)
    (url fp : String) (st : Nat) (stx : String) (ct cl : Option String)
    (body : List Nat)
    (hTrae : (jsIncludes env.cwd traeWin || jsIncludes env.cwd traePosix) = true)
    (hRel : pathIsAbsolute (pathNormalize fp) = false)
    (hWc : fs.pathExists webChatterDir = true)
    (hsafe : isPathSafe env fs fp (some (getBaseDirectory env fs)) = true)
    (hurl : jsUrlParses url = true)
    (hfetch : net.fetch url = FetchBehavior.response st stx true ct cl body)
    (h2xx : 200 ≤ st ∧ st ≤ 299)
    (hw : fs.writeError (pathResolve env.cwd [webChatterDir, pathNormalize fp]) = none)
    (hDiff : pathResolve env.cwd [webChatterDir, pathNormalize fp] ≠
      pathResolve env.cwd [getBaseDirectory env fs, pathNormalize fp]) :
    (saveUrlContent env fs net url fp).outcome =
      Outcome.success (pathResolve env.cwd [webChatterDir, pathNormalize fp])
        body.length (jsOrDefault ct "application/octet-stream") url st ∧
    (saveUrlContent env fs net url fp).writes =
      [WriteEvent.full (pathResolve env.cwd [webChatterDir, pathNormalize fp]) body] ∧
    pathResolve env.cwd [webChatterDir, pathNormalize fp] ≠
      pathResolve env.cwd [getBaseDirectory env fs, pathNormalize fp] := by
  have hdest : destinationPath env fs (getBaseDirectory env fs) (pathNormalize fp) =
      pathResolve env.cwd [webChatterDir, pathNormalize fp] := by
    unfold destinationPath
    rw [if_pos hTrae, if_pos (by simp [hRel]), if_pos hWc]
  have hfe : fetchUrlAsStream net url =
      (Except.ok
        { body := body,
          metadata :=
            { contentType := jsOrDefault ct "application/octet-stream",
              contentLength := jsHeaderInt cl,
              url := url,
              statusCode := st } }, true) := by
    simp [fetchUrlAsStream, hurl, hfetch, h2xx]
  have hss : saveStreamToFile fs
      (pathResolve env.cwd [webChatterDir, pathNormalize fp]) body =
      (Except.ok
        (pathResolve env.cwd [webChatterDir, pathNormalize fp], body.length),
       [WriteEvent.full (pathResolve env.cwd [webChatterDir, pathNormalize fp]) body]) := by
    simp [saveStreamToFile, hw]
  unfold saveUrlContent
  rw [if_pos hsafe]
  simp only [hfe]
  rw [hdest]
  simp only [hss]
  exact ⟨trivial, trivial, hDiff⟩

/-- Witness for C10: with working directory `/u/AppData/Local/Programs/Trae` and
base directory `/base`, the relative path `out.txt` is validated against `/base`
but written under the (POSIX-resolved) web-chatter directory. -/
theorem trae_webchatter_destination_witness :
    (saveUrlContent envTrae fsTrae netOk "http://example.com/" "out.txt").outcome =
      Outcome.success "/u/AppData/Local/Programs/Trae/D:\\AM\\GitHub\\web-chatter/out.txt"
        3 "application/octet-stream" "http://example.com/" 200 ∧
    (saveUrlContent envTrae fsTrae netOk "http://example.com/" "out.txt").writes =
      [WriteEvent.full
        "/u/AppData/Local/Programs/Trae/D:\\AM\\GitHub\\web-chatter/out.txt" [7, 8, 9]] ∧
    pathResolve envTrae.cwd [webChatterDir, pathNormalize "out.txt"] ≠
      pathResolve envTrae.cwd [getBaseDirectory envTrae fsTrae, pathNormalize "out.txt"] :=
  trae_webchatter_destination envTrae fsTrae netOk "http://example.com/" "out.txt"
    200 "OK" none (some "999") [7, 8, 9] rfl rfl rfl rfl rfl rfl (by decide) rfl
    (by decide)

end UrlContentSaver
